import Mathlib

/-!
Shallow embedding of the Buy-or-Not decision scoring engine
(src/App.tsx: clamp, preset tables, cost model, resale-offset model,
sub-scores, aggregator, verdict classifier, sensitivity analyzer).
All JavaScript numbers are modelled as rationals; `Math.round` is
modelled as `⌊x + 1/2⌋`, its behaviour on all real arguments.
-/

/-- `clamp(v, lo = 0, hi = 100) = Math.max(lo, Math.min(hi, v))`. -/
def clamp (v : ℚ) (lo : ℚ := 0) (hi : ℚ := 100) : ℚ :=
  max lo (min hi v)

/-- JavaScript `Math.round`: round half toward positive infinity. -/
def jsRound (x : ℚ) : ℤ :=
  ⌊x + 1/2⌋

/-- One entry of `CONDITION_PRESETS`. -/
structure ConditionPreset where
  key : String
  probMult : ℚ
  priceMult : ℚ
deriving DecidableEq

/-- One entry of `DEMAND_PRESETS`. -/
structure DemandPreset where
  key : String
  probMult : ℚ
  timeHoursAdd : ℚ
deriving DecidableEq

/-- The `CONDITION_PRESETS` table. -/
def CONDITION_PRESETS : List ConditionPreset :=
  [ { key := "new", probMult := 1.0, priceMult := 1.0 },
    { key := "like_new", probMult := 1.05, priceMult := 0.95 },
    { key := "good", probMult := 1.0, priceMult := 0.9 },
    { key := "fair", probMult := 0.85, priceMult := 0.8 },
    { key := "poor", probMult := 0.7, priceMult := 0.65 } ]

/-- The `DEMAND_PRESETS` table. -/
def DEMAND_PRESETS : List DemandPreset :=
  [ { key := "high", probMult := 1.15, timeHoursAdd := -0.5 },
    { key := "medium", probMult := 1.0, timeHoursAdd := 0 },
    { key := "low", probMult := 0.8, timeHoursAdd := 0.75 } ]

/-- `CONDITION_PRESETS.find((c) => c.key === condKey) ?? CONDITION_PRESETS[1]`. -/
def lookupCondition (key : String) : ConditionPreset :=
  (CONDITION_PRESETS.find? (fun c => c.key == key)).getD
    { key := "like_new", probMult := 1.05, priceMult := 0.95 }

/-- `DEMAND_PRESETS.find((d) => d.key === demandKey) ?? DEMAND_PRESETS[1]`. -/
def lookupDemand (key : String) : DemandPreset :=
  (DEMAND_PRESETS.find? (fun d => d.key == key)).getD
    { key := "medium", probMult := 1.0, timeHoursAdd := 0 }

/-- The complete input snapshot driving one computation
(the reactive state fields of `BuyOrNot`). -/
structure ItemInputs where
  price : ℚ
  taxRatePct : ℚ
  budgetImpact : ℚ
  needLevel : ℚ
  useFrequency : ℚ
  joyScore : ℚ
  longevity : ℚ
  workRelated : Bool
  expectSalePrice : ℚ
  saleProbabilityPct : ℚ
  platformFees : ℚ
  shipCost : ℚ
  timeHours : ℚ
  hourlyValue : ℚ
  friction : ℚ
  resaleAggressive : Bool
  condKey : String
  demandKey : String
  simulateWait : Bool
  targetDiscountPct : ℚ
  monthsToWait : ℚ
  monthsOwn : ℚ
  usesPerWeek : ℚ
  keepOldItem : Bool
  minimalismStrength : ℚ
  returnPolicy : ℚ
  warranty : ℚ
  spaceFit : ℚ
  altAvailable : ℚ
  urgency : ℚ
  wFinancial : ℚ
  wUtility : ℚ
  wRisk : ℚ
deriving DecidableEq

/-- `taxFor = (p) => (p * taxRatePct) / 100`. -/
def taxFor (i : ItemInputs) (p : ℚ) : ℚ :=
  p * i.taxRatePct / 100

/-- `stickerCost = price + taxFor(price)`. -/
def stickerCost (i : ItemInputs) : ℚ :=
  i.price + taxFor i i.price

/-- `stickerCostWait`: discounted price plus its tax. -/
def stickerCostWait (i : ItemInputs) : ℚ :=
  let discounted := i.price * (1 - i.targetDiscountPct / 100)
  discounted + taxFor i discounted

/-- `adjSaleProb = clamp(saleProbabilityPct * cond.probMult * demand.probMult, 0, 100)`. -/
def adjSaleProb (i : ItemInputs) : ℚ :=
  clamp (i.saleProbabilityPct * (lookupCondition i.condKey).probMult *
    (lookupDemand i.demandKey).probMult) 0 100

/-- `adjTimeHours = Math.max(0, timeHours + demand.timeHoursAdd)`. -/
def adjTimeHours (i : ItemInputs) : ℚ :=
  max 0 (i.timeHours + (lookupDemand i.demandKey).timeHoursAdd)

/-- `adjSalePrice = expectSalePrice * cond.priceMult`. -/
def adjSalePrice (i : ItemInputs) : ℚ :=
  i.expectSalePrice * (lookupCondition i.condKey).priceMult

/-- `resaleOffset = Math.max(0, gross - platformFees - shipCost - timeCost - friction)`
with `gross = adjSalePrice * adjSaleProb/100` and `timeCost = adjTimeHours * hourlyValue`. -/
def resaleOffset (i : ItemInputs) : ℚ :=
  let prob := adjSaleProb i / 100
  let gross := adjSalePrice i * prob
  let timeCost := adjTimeHours i * i.hourlyValue
  max 0 (gross - i.platformFees - i.shipCost - timeCost - i.friction)

/-- `effectiveCost = Math.max(0, stickerCost - resaleOffset)`. -/
def effectiveCost (i : ItemInputs) : ℚ :=
  max 0 (stickerCost i - resaleOffset i)

/-- `totalExpectedUses = Math.max(1, usesPerWeek * 4.33 * monthsOwn)`. -/
def totalExpectedUses (i : ItemInputs) : ℚ :=
  max 1 (i.usesPerWeek * 4.33 * i.monthsOwn)

/-- `costPerUse = effectiveCost / totalExpectedUses`. -/
def costPerUse (i : ItemInputs) : ℚ :=
  effectiveCost i / totalExpectedUses i

/-- The live `financialScore` memo. -/
def financialScore (i : ItemInputs) : ℚ :=
  let affordability := clamp (100 - i.budgetImpact * 10)
  let usage := clamp (i.useFrequency * 8 + i.longevity * 4)
  let priceDrag := clamp (100 - effectiveCost i / max 1 i.price * 50)
  let resaleBonus :=
    if i.resaleAggressive then clamp (resaleOffset i / max 1 (stickerCost i) * 100) * 0.2
    else 0
  let cpuBonus : ℚ := if costPerUse i < 1 then 8 else if costPerUse i < 3 then 5 else 0
  clamp (0.43 * affordability + 0.32 * usage + 0.2 * priceDrag + resaleBonus + cpuBonus)

/-- The live `utilityScore` memo. -/
def utilityScore (i : ItemInputs) : ℚ :=
  let need := i.needLevel * 10
  let joy := i.joyScore * 10
  let freq := i.useFrequency * 8
  let work : ℚ := if i.workRelated then 10 else 0
  let aggressiveNudge :=
    if i.resaleAggressive then min 10 (resaleOffset i / max 1 (stickerCost i) * 50)
    else 0
  clamp (0.4 * need + 0.35 * freq + 0.25 * joy + work + aggressiveNudge)

/-- The live `riskScore` memo. -/
def riskScore (i : ItemInputs) : ℚ :=
  let returns := i.returnPolicy * 10
  let warr := i.warranty * 8
  let space := i.spaceFit * 8
  let alt := 100 - i.altAvailable * 7
  let urg := i.urgency * 6
  let clutterPenalty := if i.keepOldItem then i.minimalismStrength else 0
  clamp (0.3 * returns + 0.25 * warr + 0.25 * space + 0.1 * alt + 0.1 * urg - clutterPenalty)

/-- `decisionScore = Math.round(clamp(wF*fin + wU*util + wR*risk))`. -/
def decisionScore (i : ItemInputs) : ℤ :=
  jsRound (clamp (i.wFinancial * financialScore i + i.wUtility * utilityScore i +
    i.wRisk * riskScore i))

/-- The verdict banding on a decision score (top-down, first match wins). -/
def verdictLabel (s : ℤ) : String :=
  if s ≥ 80 then "Buy"
  else if s ≥ 65 then "Lean Buy (watch price)"
  else if s ≥ 50 then "Wait / Re-evaluate"
  else "Skip for now"

/-- The live `verdict` memo (its `label` component). -/
def verdict (i : ItemInputs) : String :=
  verdictLabel (decisionScore i)

/-- `bestOffset = Math.max(0, adjSalePrice - platformFees - shipCost - adjTimeHours*hourlyValue - friction)`. -/
def bestOffset (i : ItemInputs) : ℚ :=
  max 0 (adjSalePrice i - i.platformFees - i.shipCost -
    adjTimeHours i * i.hourlyValue - i.friction)

/-- The sensitivity helper `scoreFor({sticker, offset})`: recomputes
effective cost, Financial (without the cost-per-use bonus) and Utility,
reuses the live `riskScore`, and re-aggregates with the live weights. -/
def scoreFor (i : ItemInputs) (sticker offset : ℚ) : ℤ :=
  let eff := max 0 (sticker - offset)
  let affordability := clamp (100 - i.budgetImpact * 10)
  let usage := clamp (i.useFrequency * 8 + i.longevity * 4)
  let priceDrag := clamp (100 - eff / max 1 i.price * 50)
  let resaleBonus :=
    if i.resaleAggressive then clamp (offset / max 1 sticker * 100) * 0.2 else 0
  let fin := clamp (0.43 * affordability + 0.32 * usage + 0.2 * priceDrag + resaleBonus)
  let utilAgg :=
    if i.resaleAggressive then min 10 (offset / max 1 sticker * 50) else 0
  let util := clamp (0.4 * i.needLevel * 10 + 0.35 * i.useFrequency * 8 +
    0.25 * i.joyScore * 10 + (if i.workRelated then 10 else 0) + utilAgg)
  let risk := riskScore i
  jsRound (clamp (i.wFinancial * fin + i.wUtility * util + i.wRisk * risk))

/-- The `sensitivity` memo: current, noResale, bestResale, optional waitSale. -/
structure SensitivityResult where
  current : ℤ
  noResale : ℤ
  bestResale : ℤ
  waitSale : Option ℤ
deriving DecidableEq

/-- The `sensitivity` memo of the live computation. -/
def sensitivity (i : ItemInputs) : SensitivityResult :=
  { current := decisionScore i
    noResale := scoreFor i (stickerCost i) 0
    bestResale := scoreFor i (stickerCost i) (bestOffset i)
    waitSale :=
      if i.simulateWait then some (scoreFor i (stickerCostWait i) (resaleOffset i))
      else none }

/-! ### Proof infrastructure: unclamped score bases and basic lemmas -/

/-- The unclamped financial base shared by `financialScore` (which adds the
cost-per-use bonus) and `scoreFor` (which omits it), as a function of the
sticker cost and offset in play. -/
def finBase (i : ItemInputs) (s o : ℚ) : ℚ :=
  0.43 * clamp (100 - i.budgetImpact * 10) +
    0.32 * clamp (i.useFrequency * 8 + i.longevity * 4) +
    0.2 * clamp (100 - max 0 (s - o) / max 1 i.price * 50) +
    (if i.resaleAggressive then clamp (o / max 1 s * 100) * 0.2 else 0)

/-- The cost-per-use bonus of the live `financialScore`. -/
def cpuBonus (i : ItemInputs) : ℚ :=
  if costPerUse i < 1 then 8 else if costPerUse i < 3 then 5 else 0

/-- The unclamped utility base of `scoreFor`, as a function of the sticker
cost and offset in play. -/
def utilBase (i : ItemInputs) (s o : ℚ) : ℚ :=
  0.4 * i.needLevel * 10 + 0.35 * i.useFrequency * 8 + 0.25 * i.joyScore * 10 +
    (if i.workRelated then 10 else 0) +
    (if i.resaleAggressive then min 10 (o / max 1 s * 50) else 0)

theorem scoreFor_eq (i : ItemInputs) (s o : ℚ) :
    scoreFor i s o =
      jsRound (clamp (i.wFinancial * clamp (finBase i s o) +
        i.wUtility * clamp (utilBase i s o) + i.wRisk * riskScore i)) := rfl

theorem financialScore_eq (i : ItemInputs) :
    financialScore i =
      clamp (finBase i (stickerCost i) (resaleOffset i) + cpuBonus i) := rfl

theorem utilityScore_eq (i : ItemInputs) :
    utilityScore i = clamp (utilBase i (stickerCost i) (resaleOffset i)) := by
  unfold utilityScore utilBase
  ring_nf

theorem clamp_lo {v lo hi : ℚ} : lo ≤ clamp v lo hi :=
  le_max_left _ _

theorem clamp_le_hi {v lo hi : ℚ} (h : lo ≤ hi) : clamp v lo hi ≤ hi :=
  max_le h (min_le_left _ _)

theorem clamp_mono {v w lo hi : ℚ} (h : v ≤ w) : clamp v lo hi ≤ clamp w lo hi :=
  max_le_max le_rfl (min_le_min le_rfl h)

theorem jsRound_mono {a b : ℚ} (h : a ≤ b) : jsRound a ≤ jsRound b :=
  Int.floor_le_floor (by linarith)

theorem jsRound_nonneg {a : ℚ} (h : 0 ≤ a) : 0 ≤ jsRound a :=
  Int.le_floor.mpr (by push_cast; linarith)

theorem jsRound_le_hundred {a : ℚ} (h : a ≤ 100) : jsRound a ≤ 100 := by
  have : jsRound a ≤ jsRound 100 := jsRound_mono h
  have h100 : jsRound (100 : ℚ) = 100 := by
    unfold jsRound
    norm_num
  omega

theorem lookupCondition_mem (key : String) :
    lookupCondition key ∈ CONDITION_PRESETS := by
  unfold lookupCondition
  cases h : CONDITION_PRESETS.find? (fun c => c.key == key) with
  | none =>
      simp only [Option.getD_none]
      norm_num [CONDITION_PRESETS]
  | some c =>
      simp only [Option.getD_some]
      exact List.mem_of_find?_eq_some h

theorem lookupDemand_mem (key : String) :
    lookupDemand key ∈ DEMAND_PRESETS := by
  unfold lookupDemand
  cases h : DEMAND_PRESETS.find? (fun d => d.key == key) with
  | none =>
      simp only [Option.getD_none]
      norm_num [DEMAND_PRESETS]
  | some d =>
      simp only [Option.getD_some]
      exact List.mem_of_find?_eq_some h

theorem conditionPreset_priceMult_nonneg :
    ∀ c ∈ CONDITION_PRESETS, 0 ≤ c.priceMult := by
  intro c hc
  fin_cases hc <;> norm_num

theorem resaleOffset_nonneg (i : ItemInputs) : 0 ≤ resaleOffset i :=
  le_max_left _ _

theorem effectiveCost_nonneg (i : ItemInputs) : 0 ≤ effectiveCost i :=
  le_max_left _ _

theorem bestOffset_nonneg (i : ItemInputs) : 0 ≤ bestOffset i :=
  le_max_left _ _

/-! ### Claim theorems -/

/-- C1: for every ItemInputs (all numeric fields are rationals, hence
finite), financialScore, utilityScore, riskScore and decisionScore each lie
in [0,100]; decisionScore is an integer by construction (its type is ℤ,
being the image of `jsRound`). -/
theorem scores_within_bounds (i : ItemInputs) :
    0 ≤ financialScore i ∧ financialScore i ≤ 100 ∧
    0 ≤ utilityScore i ∧ utilityScore i ≤ 100 ∧
    0 ≤ riskScore i ∧ riskScore i ≤ 100 ∧
    0 ≤ decisionScore i ∧ decisionScore i ≤ 100 := by
  unfold financialScore utilityScore riskScore decisionScore
  refine ⟨clamp_lo, clamp_le_hi (by norm_num), clamp_lo, clamp_le_hi (by norm_num),
    clamp_lo, clamp_le_hi (by norm_num),
    jsRound_nonneg clamp_lo, jsRound_le_hundred (clamp_le_hi (by norm_num))⟩

/-- C2: the verdict label is obtained from the decision score by top-down
banding with inclusive lower bounds: ≥80 → "Buy", else ≥65 → "Lean Buy
(watch price)", else ≥50 → "Wait / Re-evaluate", else "Skip for now". -/
theorem verdict_banding :
    (∀ i : ItemInputs, verdict i = verdictLabel (decisionScore i)) ∧
    ∀ s : ℤ,
      (80 ≤ s → verdictLabel s = "Buy") ∧
      (65 ≤ s → s < 80 → verdictLabel s = "Lean Buy (watch price)") ∧
      (50 ≤ s → s < 65 → verdictLabel s = "Wait / Re-evaluate") ∧
      (s < 50 → verdictLabel s = "Skip for now") := by
  refine ⟨fun i => rfl, fun s => ⟨?_, ?_, ?_, ?_⟩⟩ <;>
    · intros
      unfold verdictLabel
      split_ifs <;> first | rfl | omega

/-- Witness for C2 at the boundary scores 80, 79, 65, 64, 50, 49. -/
theorem verdict_banding_witness :
    verdictLabel 80 = "Buy" ∧ verdictLabel 79 = "Lean Buy (watch price)" ∧
    verdictLabel 65 = "Lean Buy (watch price)" ∧
    verdictLabel 64 = "Wait / Re-evaluate" ∧
    verdictLabel 50 = "Wait / Re-evaluate" ∧
    verdictLabel 49 = "Skip for now" :=
  ⟨(verdict_banding.2 80).1 (by norm_num),
   (verdict_banding.2 79).2.1 (by norm_num) (by norm_num),
   (verdict_banding.2 65).2.1 (by norm_num) (by norm_num),
   (verdict_banding.2 64).2.2.1 (by norm_num) (by norm_num),
   (verdict_banding.2 50).2.2.1 (by norm_num) (by norm_num),
   (verdict_banding.2 49).2.2.2 (by norm_num)⟩

/-- C4: for every ItemInputs — including those where fees, shipping, time
cost and friction exceed the gross expected resale value — the resale
offset and the effective cost are nonnegative. -/
theorem offset_and_effectiveCost_nonneg (i : ItemInputs) :
    0 ≤ resaleOffset i ∧ 0 ≤ effectiveCost i :=
  ⟨resaleOffset_nonneg i, effectiveCost_nonneg i⟩

/-- The concrete scenario of C8 (the app's initial state): price 500,
13% tax, expected sale price 250 at 80% base probability, condition
"like_new", demand "medium", platform fees 25, shipping 20, 2 hours at
40/hour, friction 10. -/
def scenarioInputs : ItemInputs :=
  { price := 500, taxRatePct := 13, budgetImpact := 5, needLevel := 4,
    useFrequency := 7, joyScore := 6, longevity := 6, workRelated := false,
    expectSalePrice := 250, saleProbabilityPct := 80, platformFees := 25,
    shipCost := 20, timeHours := 2, hourlyValue := 40, friction := 10,
    resaleAggressive := false, condKey := "like_new", demandKey := "medium",
    simulateWait := false, targetDiscountPct := 10, monthsToWait := 1,
    monthsOwn := 24, usesPerWeek := 5, keepOldItem := false,
    minimalismStrength := 6, returnPolicy := 7, warranty := 6, spaceFit := 8,
    altAvailable := 5, urgency := 4, wFinancial := 0.45, wUtility := 0.4,
    wRisk := 0.15 }

theorem lookupCondition_like_new :
    lookupCondition "like_new" = ⟨"like_new", 1.05, 0.95⟩ := rfl

theorem lookupDemand_medium : lookupDemand "medium" = ⟨"medium", 1.0, 0⟩ := rfl

/-- C8: on the concrete scenario the engine computes exactly
stickerCost = 565, adjusted probability = 84, adjusted sale price = 237.5,
adjusted hours = 2, and resale offset = max(0, 237.5·0.84 − 25 − 20 − 2·40
− 10) = 64.5, matching the arithmetic precisely. -/
theorem concrete_scenario_exact :
    stickerCost scenarioInputs = 565 ∧
    adjSaleProb scenarioInputs = 84 ∧
    adjSalePrice scenarioInputs = 237.5 ∧
    adjTimeHours scenarioInputs = 2 ∧
    resaleOffset scenarioInputs = max 0 (237.5 * 0.84 - 25 - 20 - 2 * 40 - 10) ∧
    resaleOffset scenarioInputs = 64.5 := by
  refine ⟨?_, ?_, ?_, ?_, ?_, ?_⟩ <;>
    norm_num [stickerCost, taxFor, adjSaleProb, adjSalePrice, adjTimeHours,
      resaleOffset, clamp, lookupCondition_like_new, lookupDemand_medium,
      scenarioInputs, max_def, min_def]

/-- A negative-price input: everything zero except price = −100 and the
fields fixing the preset keys; sticker cost is −100, which propagates. -/
def negPriceInputs : ItemInputs :=
  { price := -100, taxRatePct := 0, budgetImpact := 0, needLevel := 0,
    useFrequency := 0, joyScore := 0, longevity := 0, workRelated := false,
    expectSalePrice := 0, saleProbabilityPct := 0, platformFees := 0,
    shipCost := 0, timeHours := 0, hourlyValue := 0, friction := 0,
    resaleAggressive := false, condKey := "like_new", demandKey := "medium",
    simulateWait := false, targetDiscountPct := 0, monthsToWait := 0,
    monthsOwn := 24, usesPerWeek := 5, keepOldItem := false,
    minimalismStrength := 0, returnPolicy := 0, warranty := 0, spaceFit := 0,
    altAvailable := 0, urgency := 0, wFinancial := 1, wUtility := 0,
    wRisk := 0 }

/-- C5 counterexample: at price −100 (negative prices propagate through the
engine), stickerCost = −100 while effectiveCost = max(0, −100 − 0) = 0, so
effectiveCost > stickerCost and the claimed inequality fails. -/
theorem effectiveCost_gt_stickerCost_cex :
    stickerCost negPriceInputs = -100 ∧ effectiveCost negPriceInputs = 0 ∧
    ¬ effectiveCost negPriceInputs ≤ stickerCost negPriceInputs := by
  refine ⟨?_, ?_, ?_⟩ <;>
    norm_num [stickerCost, effectiveCost, resaleOffset, adjSaleProb,
      adjSalePrice, adjTimeHours, taxFor, clamp, lookupCondition_like_new,
      lookupDemand_medium, negPriceInputs, max_def, min_def]

/-- C5 amended: effectiveCost ≤ stickerCost whenever the sticker cost is
nonnegative (the resale offset never increases a nonnegative cost); for a
negative sticker cost the flooring at 0 raises the effective cost above it. -/
theorem effectiveCost_le_stickerCost_of_nonneg (i : ItemInputs)
    (h : 0 ≤ stickerCost i) : effectiveCost i ≤ stickerCost i :=
  max_le h (by linarith [resaleOffset_nonneg i])

/-- Witness for C5's amended theorem at the concrete scenario. -/
theorem effectiveCost_le_stickerCost_witness :
    0 ≤ stickerCost scenarioInputs ∧
    effectiveCost scenarioInputs ≤ stickerCost scenarioInputs := by
  have h : (0:ℚ) ≤ stickerCost scenarioInputs := by
    norm_num [stickerCost, taxFor, scenarioInputs]
  exact ⟨h, effectiveCost_le_stickerCost_of_nonneg scenarioInputs h⟩

/-- C7: the waitSale sensitivity entry is present exactly when the
wait-for-sale flag is set, and then equals `scoreFor` at the discounted
sticker cost with the live resale offset reused unchanged. -/
theorem waitSale_presence (i : ItemInputs) :
    ((sensitivity i).waitSale.isSome = i.simulateWait) ∧
    (i.simulateWait = true →
      (sensitivity i).waitSale =
        some (scoreFor i (stickerCostWait i) (resaleOffset i))) := by
  cases h : i.simulateWait <;> simp [sensitivity, h]

/-- The concrete scenario with the wait-for-sale flag enabled. -/
def waitScenarioInputs : ItemInputs :=
  { scenarioInputs with simulateWait := true }

/-- Witness for C7 with the wait-for-sale flag set. -/
theorem waitSale_presence_witness :
    waitScenarioInputs.simulateWait = true ∧
    (sensitivity waitScenarioInputs).waitSale =
      some (scoreFor waitScenarioInputs (stickerCostWait waitScenarioInputs)
        (resaleOffset waitScenarioInputs)) :=
  ⟨rfl, (waitSale_presence waitScenarioInputs).2 rfl⟩

/-- C9: both preset lookups are pure total functions; every key (known or
not) yields a preset from the respective table, and an unrecognized key
yields the designated default — the "like_new" condition entry and the
"medium" demand entry. -/
theorem preset_lookup_total (ckey dkey : String) :
    lookupCondition ckey ∈ CONDITION_PRESETS ∧
    lookupDemand dkey ∈ DEMAND_PRESETS ∧
    ((∀ c ∈ CONDITION_PRESETS, c.key ≠ ckey) →
      lookupCondition ckey = ⟨"like_new", 1.05, 0.95⟩) ∧
    ((∀ d ∈ DEMAND_PRESETS, d.key ≠ dkey) →
      lookupDemand dkey = ⟨"medium", 1.0, 0⟩) := by
  refine ⟨lookupCondition_mem ckey, lookupDemand_mem dkey, ?_, ?_⟩
  · intro h
    unfold lookupCondition
    rw [List.find?_eq_none.mpr]
    · rfl
    · intro c hc
      simpa using h c hc
  · intro h
    unfold lookupDemand
    rw [List.find?_eq_none.mpr]
    · rfl
    · intro d hd
      simpa using h d hd

/-- Witness for C9 at the unrecognized key "vintage". -/
theorem preset_lookup_total_witness :
    lookupCondition "vintage" ∈ CONDITION_PRESETS ∧
    lookupDemand "vintage" ∈ DEMAND_PRESETS ∧
    lookupCondition "vintage" = ⟨"like_new", 1.05, 0.95⟩ ∧
    lookupDemand "vintage" = ⟨"medium", 1.0, 0⟩ :=
  ⟨(preset_lookup_total "vintage" "vintage").1,
   (preset_lookup_total "vintage" "vintage").2.1,
   (preset_lookup_total "vintage" "vintage").2.2.1 (by decide),
   (preset_lookup_total "vintage" "vintage").2.2.2 (by decide)⟩

/-- C10: with a nonnegative expected sale price, the best-case offset
(probability substituted by 100%) is at least the live resale offset, since
the adjusted probability is clamped to at most 100; hence the live offset
always lies in [0, bestOffset]. -/
theorem resaleOffset_le_bestOffset (i : ItemInputs)
    (h : 0 ≤ i.expectSalePrice) : resaleOffset i ≤ bestOffset i := by
  have hpm : 0 ≤ (lookupCondition i.condKey).priceMult :=
    conditionPreset_priceMult_nonneg _ (lookupCondition_mem i.condKey)
  have hsp : 0 ≤ adjSalePrice i := mul_nonneg h hpm
  have hle : adjSaleProb i ≤ 100 := clamp_le_hi (by norm_num)
  have hge : (0:ℚ) ≤ adjSaleProb i := clamp_lo
  have hgross : adjSalePrice i * (adjSaleProb i / 100) ≤ adjSalePrice i := by
    nlinarith [mul_nonneg hsp (sub_nonneg.mpr hle)]
  simp only [resaleOffset, bestOffset]
  exact max_le_max le_rfl (by linarith)

/-- Witness for C10 at the concrete scenario (the offset there is 64.5 and
the best-case offset 102.5). -/
theorem resaleOffset_le_bestOffset_witness :
    0 ≤ scenarioInputs.expectSalePrice ∧
    resaleOffset scenarioInputs ≤ bestOffset scenarioInputs :=
  ⟨by norm_num [scenarioInputs],
   resaleOffset_le_bestOffset scenarioInputs (by norm_num [scenarioInputs])⟩

/-- C6: holding every other field fixed, increasing budgetImpact never
increases financialScore; and with keepOldItem set, increasing
minimalismStrength never increases riskScore. -/
theorem score_monotonicity :
    (∀ (i : ItemInputs) (b₁ b₂ : ℚ), b₁ ≤ b₂ →
      financialScore { i with budgetImpact := b₂ } ≤
        financialScore { i with budgetImpact := b₁ }) ∧
    (∀ (i : ItemInputs) (m₁ m₂ : ℚ), i.keepOldItem = true → m₁ ≤ m₂ →
      riskScore { i with minimalismStrength := m₂ } ≤
        riskScore { i with minimalismStrength := m₁ }) := by
  constructor
  · intro i b₁ b₂ hb
    have key : ∀ b : ℚ, financialScore { i with budgetImpact := b } =
        clamp (0.43 * clamp (100 - b * 10) +
          0.32 * clamp (i.useFrequency * 8 + i.longevity * 4) +
          0.2 * clamp (100 - effectiveCost i / max 1 i.price * 50) +
          (if i.resaleAggressive then
            clamp (resaleOffset i / max 1 (stickerCost i) * 100) * 0.2 else 0) +
          cpuBonus i) := fun b => rfl
    rw [key b₂, key b₁]
    apply clamp_mono
    have h2 : clamp (100 - b₂ * 10) ≤ clamp (100 - b₁ * 10) :=
      clamp_mono (by linarith)
    linarith
  · intro i m₁ m₂ hk hm
    have key : ∀ m : ℚ, riskScore { i with minimalismStrength := m } =
        clamp (0.3 * (i.returnPolicy * 10) + 0.25 * (i.warranty * 8) +
          0.25 * (i.spaceFit * 8) + 0.1 * (100 - i.altAvailable * 7) +
          0.1 * (i.urgency * 6) - (if i.keepOldItem then m else 0)) :=
      fun m => rfl
    rw [key m₂, key m₁]
    apply clamp_mono
    simp only [hk, if_true]
    linarith

/-- The concrete scenario with the keep-old-item flag enabled. -/
def keepOldScenarioInputs : ItemInputs :=
  { scenarioInputs with keepOldItem := true }

/-- Witness for C6: budgetImpact 5 → 6 and, with keepOldItem set,
minimalismStrength 6 → 7 on the concrete scenario. -/
theorem score_monotonicity_witness :
    (5:ℚ) ≤ 6 ∧
    financialScore { scenarioInputs with budgetImpact := 6 } ≤
      financialScore { scenarioInputs with budgetImpact := 5 } ∧
    keepOldScenarioInputs.keepOldItem = true ∧
    riskScore { keepOldScenarioInputs with minimalismStrength := 7 } ≤
      riskScore { keepOldScenarioInputs with minimalismStrength := 6 } :=
  ⟨by norm_num, score_monotonicity.1 scenarioInputs 5 6 (by norm_num), rfl,
   score_monotonicity.2 keepOldScenarioInputs 6 7 rfl (by norm_num)⟩

theorem cpuBonus_nonneg (i : ItemInputs) : 0 ≤ cpuBonus i := by
  unfold cpuBonus
  split_ifs <;> norm_num

theorem finBase_mono_offset (i : ItemInputs) (s : ℚ) {o₁ o₂ : ℚ}
    (h : o₁ ≤ o₂) : finBase i s o₁ ≤ finBase i s o₂ := by
  unfold finBase
  have hm : (0:ℚ) < max 1 i.price := lt_of_lt_of_le one_pos (le_max_left _ _)
  have hms : (0:ℚ) < max 1 s := lt_of_lt_of_le one_pos (le_max_left _ _)
  have heff : max 0 (s - o₂) ≤ max 0 (s - o₁) := max_le_max le_rfl (by linarith)
  have hdiv : max 0 (s - o₂) / max 1 i.price ≤ max 0 (s - o₁) / max 1 i.price := by
    rw [div_eq_mul_inv, div_eq_mul_inv]
    exact mul_le_mul_of_nonneg_right heff (inv_nonneg.mpr hm.le)
  have hpd : clamp (100 - max 0 (s - o₁) / max 1 i.price * 50) ≤
      clamp (100 - max 0 (s - o₂) / max 1 i.price * 50) :=
    clamp_mono (by linarith)
  have hdo : o₁ / max 1 s ≤ o₂ / max 1 s := by
    rw [div_eq_mul_inv, div_eq_mul_inv]
    exact mul_le_mul_of_nonneg_right h (inv_nonneg.mpr hms.le)
  have hrb : (if i.resaleAggressive then clamp (o₁ / max 1 s * 100) * 0.2 else 0) ≤
      (if i.resaleAggressive then clamp (o₂ / max 1 s * 100) * 0.2 else 0) := by
    split_ifs
    · exact mul_le_mul_of_nonneg_right (clamp_mono (by linarith)) (by norm_num)
    · exact le_rfl
  linarith

theorem utilBase_mono_offset (i : ItemInputs) (s : ℚ) {o₁ o₂ : ℚ}
    (h : o₁ ≤ o₂) : utilBase i s o₁ ≤ utilBase i s o₂ := by
  unfold utilBase
  have hms : (0:ℚ) < max 1 s := lt_of_lt_of_le one_pos (le_max_left _ _)
  have hdo : o₁ / max 1 s ≤ o₂ / max 1 s := by
    rw [div_eq_mul_inv, div_eq_mul_inv]
    exact mul_le_mul_of_nonneg_right h (inv_nonneg.mpr hms.le)
  have hn : (if i.resaleAggressive then min 10 (o₁ / max 1 s * 50) else 0) ≤
      (if i.resaleAggressive then min 10 (o₂ / max 1 s * 50) else 0) := by
    split_ifs
    · exact min_le_min le_rfl (by linarith)
    · exact le_rfl
  linarith

theorem scoreFor_mono_offset (i : ItemInputs) (s : ℚ)
    (hF : 0 ≤ i.wFinancial) (hU : 0 ≤ i.wUtility) {o₁ o₂ : ℚ} (ho : o₁ ≤ o₂) :
    scoreFor i s o₁ ≤ scoreFor i s o₂ := by
  rw [scoreFor_eq, scoreFor_eq]
  apply jsRound_mono
  apply clamp_mono
  have h1 : i.wFinancial * clamp (finBase i s o₁) ≤
      i.wFinancial * clamp (finBase i s o₂) :=
    mul_le_mul_of_nonneg_left (clamp_mono (finBase_mono_offset i s ho)) hF
  have h2 : i.wUtility * clamp (utilBase i s o₁) ≤
      i.wUtility * clamp (utilBase i s o₂) :=
    mul_le_mul_of_nonneg_left (clamp_mono (utilBase_mono_offset i s ho)) hU
  linarith

/-- C3 counterexample inputs: weights (1,0,0), sticker cost 100, no resale
value at all (so the live offset and the best-case offset are both 0), and
24 months × 5 uses/week, so the live financial score earns the +8
cost-per-use bonus that `scoreFor` omits. The live decision score is 18
while the bestResale scenario score is only 10. -/
def noCpuCexInputs : ItemInputs :=
  { price := 100, taxRatePct := 0, budgetImpact := 10, needLevel := 0,
    useFrequency := 0, joyScore := 0, longevity := 0, workRelated := false,
    expectSalePrice := 0, saleProbabilityPct := 0, platformFees := 0,
    shipCost := 0, timeHours := 0, hourlyValue := 0, friction := 0,
    resaleAggressive := false, condKey := "like_new", demandKey := "medium",
    simulateWait := false, targetDiscountPct := 0, monthsToWait := 0,
    monthsOwn := 24, usesPerWeek := 5, keepOldItem := false,
    minimalismStrength := 0, returnPolicy := 0, warranty := 0, spaceFit := 0,
    altAvailable := 0, urgency := 0, wFinancial := 1, wUtility := 0,
    wRisk := 0 }

/-- C3 counterexample: the hypothesis 0 ≤ resaleOffset ≤ bestOffset holds,
yet the bestResale-scenario score is strictly below the current decision
score, because the live financial score includes a cost-per-use bonus that
the sensitivity `scoreFor` does not recompute. -/
theorem sensitivity_ordering_cex :
    0 ≤ resaleOffset noCpuCexInputs ∧
    resaleOffset noCpuCexInputs ≤ bestOffset noCpuCexInputs ∧
    (sensitivity noCpuCexInputs).bestResale <
      (sensitivity noCpuCexInputs).current := by
  refine ⟨resaleOffset_nonneg _, ?_, ?_⟩ <;>
    norm_num [sensitivity, decisionScore, scoreFor, jsRound, financialScore,
      utilityScore, riskScore, effectiveCost, resaleOffset, bestOffset,
      adjSaleProb, adjSalePrice, adjTimeHours, stickerCost, stickerCostWait,
      taxFor, costPerUse, totalExpectedUses, clamp, lookupCondition_like_new,
      lookupDemand_medium, noCpuCexInputs, max_def, min_def]

/-- C3 amended: with nonnegative financial and utility weights and the live
offset between 0 and the best-case offset, the `scoreFor` scenario scores
are monotone in the offset — noResale ≤ scoreFor(liveSticker, liveOffset) ≤
bestResale — and the live decision score is at least the noResale score.
The live score may however exceed the bestResale score, because the live
financial score adds a cost-per-use bonus that `scoreFor` omits. -/
theorem sensitivity_ordering_amended (i : ItemInputs)
    (hF : 0 ≤ i.wFinancial) (hU : 0 ≤ i.wUtility)
    (hbo : resaleOffset i ≤ bestOffset i) :
    (sensitivity i).noResale ≤ scoreFor i (stickerCost i) (resaleOffset i) ∧
    scoreFor i (stickerCost i) (resaleOffset i) ≤ (sensitivity i).bestResale ∧
    (sensitivity i).noResale ≤ (sensitivity i).current := by
  refine ⟨scoreFor_mono_offset i (stickerCost i) hF hU (resaleOffset_nonneg i),
    scoreFor_mono_offset i (stickerCost i) hF hU hbo, ?_⟩
  show scoreFor i (stickerCost i) 0 ≤ decisionScore i
  have hfs : clamp (finBase i (stickerCost i) 0) ≤ financialScore i := by
    rw [financialScore_eq]
    calc clamp (finBase i (stickerCost i) 0)
        ≤ clamp (finBase i (stickerCost i) (resaleOffset i)) :=
          clamp_mono (finBase_mono_offset i _ (resaleOffset_nonneg i))
      _ ≤ clamp (finBase i (stickerCost i) (resaleOffset i) + cpuBonus i) :=
          clamp_mono (by linarith [cpuBonus_nonneg i])
  have hus : clamp (utilBase i (stickerCost i) 0) ≤ utilityScore i := by
    rw [utilityScore_eq]
    exact clamp_mono (utilBase_mono_offset i _ (resaleOffset_nonneg i))
  rw [scoreFor_eq]
  unfold decisionScore
  apply jsRound_mono
  apply clamp_mono
  have h1 := mul_le_mul_of_nonneg_left hfs hF
  have h2 := mul_le_mul_of_nonneg_left hus hU
  linarith

/-- Witness for C3's amended theorem at the concrete scenario (weights
0.45/0.4/0.15, live offset 64.5 ≤ best-case offset 102.5). -/
theorem sensitivity_ordering_amended_witness :
    0 ≤ scenarioInputs.wFinancial ∧ 0 ≤ scenarioInputs.wUtility ∧
    resaleOffset scenarioInputs ≤ bestOffset scenarioInputs ∧
    (sensitivity scenarioInputs).noResale ≤
      scoreFor scenarioInputs (stickerCost scenarioInputs)
        (resaleOffset scenarioInputs) ∧
    scoreFor scenarioInputs (stickerCost scenarioInputs)
        (resaleOffset scenarioInputs) ≤
      (sensitivity scenarioInputs).bestResale ∧
    (sensitivity scenarioInputs).noResale ≤ (sensitivity scenarioInputs).current := by
  have hF : (0:ℚ) ≤ scenarioInputs.wFinancial := by norm_num [scenarioInputs]
  have hU : (0:ℚ) ≤ scenarioInputs.wUtility := by norm_num [scenarioInputs]
  have hbo : resaleOffset scenarioInputs ≤ bestOffset scenarioInputs := by
    norm_num [resaleOffset, bestOffset, adjSaleProb, adjSalePrice,
      adjTimeHours, clamp, lookupCondition_like_new, lookupDemand_medium,
      scenarioInputs, max_def, min_def]
  have h := sensitivity_ordering_amended scenarioInputs hF hU hbo
  exact ⟨hF, hU, hbo, h.1, h.2.1, h.2.2⟩
